import Mathlib

/-!
Shallow embedding of the buckling / failure evaluation engine of
`src/src/constitutive/TACSGaussianProcessModel.cpp`
(classes `TACSGaussianProcessModel` and `TACSGPBladeStiffenedShellConstitutive`).

`TacsScalar` is modelled by `ℝ`.  Arrays are modelled by `ℕ → ℝ` (buffers) or
`List ℝ` (training data).  External collaborators from the base classes
(`TACSBladeStiffenedShellConstitutive`, `TACSShellConstitutive`), whose sources
are not part of this repository snapshot, are modelled from the spec and
marked as such in their doc comments.
-/

namespace TacsGP

noncomputable section

open Real

/-! ## KS aggregation (base-class helper, modelled from the spec) -/

/-- Maximum of a list of reals (empty list defaults to `0`; never used empty). -/
def ksMax (vals : List ℝ) : ℝ := vals.foldr max (vals.headD 0)

/-- Modelled from the spec: `ksAggregation` (a `TACSShellConstitutive` base-class
helper, not under src/).  Spec 4.1:
`s = max(values) + (1/rho) * log (sum_i exp (rho * (v_i - max(values))))`. -/
def ksAggregation (vals : List ℝ) (rho : ℝ) : ℝ :=
  let m := ksMax vals
  m + (1 / rho) * Real.log ((vals.map (fun v => Real.exp (rho * (v - m)))).sum)

/-- Modelled from the spec: the per-element weights filled in by
`ksAggregationSens`; spec 4.1: `w_i = exp(rho*(v_i - max)) / sum_j exp(rho*(v_j - max))`. -/
def ksAggregationSensWeights (vals : List ℝ) (rho : ℝ) : List ℝ :=
  let m := ksMax vals
  let tot := (vals.map (fun v => Real.exp (rho * (v - m)))).sum
  vals.map (fun v => Real.exp (rho * (v - m)) / tot)

/-- Modelled from the spec: `ksAggregationSens` returns the aggregate value and
fills the per-element weight array. -/
def ksAggregationSens (vals : List ℝ) (rho : ℝ) : ℝ × List ℝ :=
  (ksAggregation vals rho, ksAggregationSensWeights vals rho)

/-! ## Trained regression model (`TACSGaussianProcessModel`, lines 3-68) -/

/-- State of a `TACSGaussianProcessModel`: a copy of the training matrix
(`n_train` rows), the coefficient vector `alpha` (length `n_train`), and the
per-criterion virtual kernel together with its gradient w.r.t. the test point
(the gradient packaging mirrors the `jacobian` array of
`TACSAxialGaussianProcessModel::kernelSens`, lines 161-191). -/
structure GPModel where
  Xtrain : List (ℕ → ℝ)
  alpha : List ℝ
  kernel : (ℕ → ℝ) → (ℕ → ℝ) → ℝ
  kernelGrad : (ℕ → ℝ) → (ℕ → ℝ) → (ℕ → ℝ)

/-- `TACSGaussianProcessModel::predictMeanTestData` (lines 31-45):
`Ytest = sum_itrain kernel(Xtest, Xtrain[itrain]) * alpha[itrain]`,
accumulated over the training points exactly as the source loop does. -/
def predictMeanTestData (gp : GPModel) (Xtest : ℕ → ℝ) : ℝ :=
  (gp.Xtrain.zip gp.alpha).foldl (fun acc p => acc + gp.kernel Xtest p.1 * p.2) 0

/-- One `kernelSens(ksens, Xtest, loc_Xtrain, Xtestsens)` call as implemented by
the kernel subclasses (lines 188-191): `Xtestsens[ii] += ksens * jacobian[ii]`. -/
def kernelSensUpdate (gp : GPModel) (ksens : ℝ) (Xtest Xtrain : ℕ → ℝ)
    (acc : ℕ → ℝ) : ℕ → ℝ :=
  fun i => acc i + ksens * gp.kernelGrad Xtest Xtrain i

/-- `TACSGaussianProcessModel::predictMeanTestDataSens` (lines 47-68).  The
source starts with `memset(Xtestsens, 0, n_param * sizeof(TacsScalar))`
(line 57), so the caller-supplied accumulator `Xtestsens` is zeroed before the
training loop accumulates into it; the function returns `Ytest` and the final
contents of the buffer. -/
def predictMeanTestDataSens (gp : GPModel) (Ysens : ℝ) (Xtest : ℕ → ℝ)
    (Xtestsens : ℕ → ℝ) : ℝ × (ℕ → ℝ) :=
  let zeroed : ℕ → ℝ := fun _ => 0
  (gp.Xtrain.zip gp.alpha).foldl
    (fun st p =>
      (st.1 + gp.kernel Xtest p.1 * p.2, kernelSensUpdate gp (Ysens * p.2) Xtest p.1 st.2))
    (0, zeroed)

/-! ## Nondimensional parameter library -/

/-- Modelled from the spec (the forward function lives in the header, which is
not under src/; formula per spec 4.3 and the source comment at line 1124):
`rho_0 = a/b * (D22/D11)^0.25`. -/
def computeAffineAspectRatio (D11 D22 a b : ℝ) : ℝ :=
  a / b * (D22 / D11) ^ (0.25 : ℝ)

/-- Modelled from the spec (header inline; formula per spec 4.3 and the source
comment at line 1144): `xi = (D12 + 2*D66) / sqrt(D11*D22)`. -/
def computeGeneralizedRigidity (D11 D22 D12 D66 : ℝ) : ℝ :=
  (D12 + 2 * D66) / Real.sqrt (D11 * D22)

/-- Modelled from the spec (header inline; formula per spec 4.3 and the source
comment at line 1161): `eps = (D12 + 2*D66) / D12`. -/
def computeGeneralizedPoissonsRatio (D12 D66 : ℝ) : ℝ :=
  (D12 + 2 * D66) / D12

/-- `computeTransverseShearParameter` (lines 1245-1249):
`A66/A11 * (b/h) * (b/h)`. -/
def computeTransverseShearParameter (A66 A11 b h : ℝ) : ℝ :=
  A66 / A11 * (b / h) * (b / h)

/-- `computeTransverseShearParameterSens` (lines 1251-1265): recomputes `zeta`,
sets `dzeta = zetasens * zeta` and adds `dzeta/A66`, `-dzeta/A11`, `2*dzeta/b`,
`-2*dzeta/h` into the four caller accumulators, returning `zeta`.
Output order: `(zeta, A66sens, A11sens, bsens, hsens)`. -/
def computeTransverseShearParameterSens (zetasens A66 A11 b h : ℝ)
    (A66sens A11sens bsens hsens : ℝ) : ℝ × ℝ × ℝ × ℝ × ℝ :=
  let zeta := A66 / A11 * (b / h) * (b / h)
  let dzeta := zetasens * zeta
  (zeta,
   A66sens + dzeta / A66,
   A11sens + dzeta * (-1) / A11,
   bsens + dzeta * 2 / b,
   hsens + dzeta * (-2) / h)

/-! ## Coupled shear-mode solver (lines 1562-1657) -/

/-- `lam2Constraint` (lines 1579-1589): the scalar Newton residual on
`lam2bar^2`. -/
def lam2Constraint (lam2sq xi gamma : ℝ) : ℝ :=
  let lam1bar := (1 + 2 * lam2sq * xi + lam2sq * lam2sq + gamma) ^ (0.25 : ℝ)
  let lam1sq := lam1bar * lam1bar
  let lam14 := lam1sq * lam1sq
  lam2sq + lam1sq + xi / 3 -
    Real.sqrt ((3 + xi) / 9 + 4 / 3 * lam1sq * xi + 4 / 3 * lam14)

/-- `lam2ConstraintDeriv` (lines 1590-1607): analytic derivative of
`lam2Constraint` w.r.t. `lam2sq`. -/
def lam2ConstraintDeriv (lam2sq xi gamma : ℝ) : ℝ :=
  let temp := 1 + 2 * lam2sq * xi + lam2sq * lam2sq + gamma
  let lam1 := temp ^ (0.25 : ℝ)
  let lam1sq := lam1 * lam1
  let lam14 := lam1sq * lam1sq
  let term2 := Real.sqrt ((3 + xi) / 9 + 4 / 3 * lam1sq * xi + 4 / 3 * lam14)
  let dlam1_dlam2sq := lam1 * 0.25 / temp * (2 + 2 * lam2sq)
  let dfdlam1 := 2 * lam1 - 0.5 / term2 * (4 / 3) * (2 * lam1 * xi + 4 * lam1 * lam1sq)
  1 + dfdlam1 * dlam1_dlam2sq

/-- One body iteration of the Newton `while` loop in `nondimShearParams`
(lines 1570-1571): `lam2bar_sq -= lam2Constraint / lam2ConstraintDeriv`. -/
def newtonStep (xi gamma lam2sq : ℝ) : ℝ :=
  lam2sq - lam2Constraint lam2sq xi gamma / lam2ConstraintDeriv lam2sq xi gamma

/-- The Newton `while` loop of `nondimShearParams` (lines 1566-1572), with
explicit fuel since the source loop carries no iteration cap: the loop exits
as soon as `|lam2Constraint| <= 1e-10` and otherwise applies `newtonStep`;
`none` models the source looping beyond the supplied fuel. -/
def newtonLoop (xi gamma : ℝ) : ℕ → ℝ → Option ℝ
  | 0, q => if |lam2Constraint q xi gamma| ≤ 1e-10 then some q else none
  | n + 1, q =>
      if |lam2Constraint q xi gamma| ≤ 1e-10 then some q
      else newtonLoop xi gamma n (newtonStep xi gamma q)

/-- `nondimShearParams` (lines 1562-1578): run the Newton loop from the
starting guess `lam2bar_sq = 0`, then return
`lam1bar = (1 + 2*lam2sq*xi + lam2sq^2 + gamma)^0.25` and
`lam2bar = lam2sq^0.5`. -/
def nondimShearParams (fuel : ℕ) (xi gamma : ℝ) : Option (ℝ × ℝ) :=
  (newtonLoop xi gamma fuel 0).map (fun lam2bar_sq =>
    ((1 + 2 * lam2bar_sq * xi + lam2bar_sq * lam2bar_sq + gamma) ^ (0.25 : ℝ),
     lam2bar_sq ^ (0.5 : ℝ)))

/-! ## Constitutive state (`TACSGPBladeStiffenedShellConstitutive`) -/

/-- Design fields of `TACSGPBladeStiffenedShellConstitutive` read by the
critical-load and failure routines, plus the three optional surrogate models
(`axialGP`, `shearGP`, `cripplingGP` may be null, selecting the closed-form
path).  `numCFmodes` is the header constant `NUM_CF_MODES` (header not under
src/; spec 4.5 only fixes it as a small constant, so it is kept abstract). -/
structure GPConst where
  panelLength : ℝ
  panelWidth : ℝ
  panelThick : ℝ
  stiffenerPitch : ℝ
  stiffenerHeight : ℝ
  stiffenerThick : ℝ
  ksWeight : ℝ
  numCFmodes : ℕ
  axialGP : Option GPModel
  shearGP : Option GPModel
  cripplingGP : Option GPModel

/-- `computeCriticalGlobalAxialLoad` (lines 1268-1303).  Surrogate path:
dimensional factor `pi^2*sqrt(D11*D22)/b/b/(1+delta)` times
`exp(predictMeanTestData([log xi, log rho_0, log(1+gamma), log zeta]))`.
Closed-form path: KS-min over `NUM_CF_MODES` axial modes. -/
def computeCriticalGlobalAxialLoad (c : GPConst)
    (D11 D22 b delta rho_0 xi gamma zeta : ℝ) : ℝ :=
  match c.axialGP with
  | some gp =>
      let dim_factor := π ^ 2 * Real.sqrt (D11 * D22) / b / b / (1 + delta)
      let Xtest : ℕ → ℝ := fun j =>
        if j = 0 then Real.log xi
        else if j = 1 then Real.log rho_0
        else if j = 2 then Real.log (1 + gamma)
        else Real.log zeta
      dim_factor * Real.exp (predictMeanTestData gp Xtest)
  | none =>
      let neg_N11crits := (List.range c.numCFmodes).map (fun i =>
        let m1 : ℝ := (i : ℝ) + 1
        let dim_factor := π ^ 2 * Real.sqrt (D11 * D22) / b / b / (1 + delta)
        let nondim_factor :=
          (1 + gamma) * (m1 / rho_0) ^ (2 : ℝ) + (m1 / rho_0) ^ (-2 : ℝ) + 2 * xi
        let negv := -(dim_factor * nondim_factor)
        negv)
      let res := -(ksAggregation neg_N11crits c.ksWeight)
      res

/-- `computeCriticalLocalAxialLoad` (lines 1399-1433): like the global axial
load but with the stiffener pitch as length scale, `gamma = 0` (so the third
surrogate input is `log(1+gamma) = 0`) and no `delta` correction. -/
def computeCriticalLocalAxialLoad (c : GPConst) (D11 D22 rho_0 xi zeta : ℝ) : ℝ :=
  match c.axialGP with
  | some gp =>
      let dim_factor :=
        π ^ 2 * Real.sqrt (D11 * D22) / c.stiffenerPitch / c.stiffenerPitch
      let Xtest : ℕ → ℝ := fun j =>
        if j = 0 then Real.log xi
        else if j = 1 then Real.log rho_0
        else if j = 2 then 0
        else Real.log zeta
      dim_factor * Real.exp (predictMeanTestData gp Xtest)
  | none =>
      let neg_N11crits := (List.range c.numCFmodes).map (fun i =>
        let m1 : ℝ := (i : ℝ) + 1
        let dim_factor :=
          π ^ 2 * Real.sqrt (D11 * D22) / c.stiffenerPitch / c.stiffenerPitch
        let nondim_factor :=
          (m1 / rho_0) ^ (2 : ℝ) + (m1 / rho_0) ^ (-2 : ℝ) + 2 * xi
        let negv := -(dim_factor * nondim_factor)
        negv)
      let res := -(ksAggregation neg_N11crits c.ksWeight)
      res

/-- `computeCriticalGlobalShearLoad` (lines 1527-1560).  The closed-form path
runs the Newton solve, hence the fuel and the `Option` result. -/
def computeCriticalGlobalShearLoad (c : GPConst) (fuel : ℕ)
    (D11 D22 b xi rho_0 gamma zeta : ℝ) : Option ℝ :=
  match c.shearGP with
  | some gp =>
      let dim_factor := π ^ 2 * (D11 * D22 * D22 * D22) ^ (0.25 : ℝ) / b / b
      let Xtest : ℕ → ℝ := fun j =>
        if j = 0 then Real.log xi
        else if j = 1 then Real.log rho_0
        else if j = 2 then Real.log (1 + gamma)
        else Real.log zeta
      some (dim_factor * Real.exp (predictMeanTestData gp Xtest))
  | none =>
      (nondimShearParams fuel xi gamma).map (fun lam =>
        let lam1 := lam.1
        let lam2 := lam.2
        let dim_factor := π ^ 2 * (D11 * D22 * D22 * D22) ^ (0.25 : ℝ) / b / b
        let nondim_factor :=
          (1 + lam1 ^ (4 : ℝ) + 6 * (lam1 * lam2) ^ (2 : ℝ) + lam2 ^ (4 : ℝ) + 2 * xi) /
            (2 * lam1 * lam1 * lam2)
        dim_factor * nondim_factor)

/-- `computeCriticalLocalShearLoad` (lines 1746-1777): same shape as the global
shear load with the stiffener pitch as length scale and `gamma = 0`. -/
def computeCriticalLocalShearLoad (c : GPConst) (fuel : ℕ)
    (D11 D22 xi rho_0 zeta : ℝ) : Option ℝ :=
  match c.shearGP with
  | some gp =>
      let dim_factor :=
        π ^ 2 * (D11 * D22 * D22 * D22) ^ (0.25 : ℝ) / c.stiffenerPitch / c.stiffenerPitch
      let Xtest : ℕ → ℝ := fun j =>
        if j = 0 then Real.log xi
        else if j = 1 then Real.log rho_0
        else if j = 2 then 0
        else Real.log zeta
      some (dim_factor * Real.exp (predictMeanTestData gp Xtest))
  | none =>
      (nondimShearParams fuel xi 0).map (fun lam =>
        let lam1 := lam.1
        let lam2 := lam.2
        let dim_factor :=
          π ^ 2 * (D11 * D22 * D22 * D22) ^ (0.25 : ℝ) / c.stiffenerPitch / c.stiffenerPitch
        let nondim_factor :=
          (1 + lam1 ^ (4 : ℝ) + 6 * (lam1 * lam2) ^ (2 : ℝ) + lam2 ^ (4 : ℝ) + 2 * xi) /
            (2 * lam1 * lam1 * lam2)
        dim_factor * nondim_factor)

/-- `computeStiffenerCripplingLoad` (lines 1864-1886). -/
def computeStiffenerCripplingLoad (c : GPConst)
    (D11 D22 xi rho_0 genPoiss zeta : ℝ) : ℝ :=
  match c.cripplingGP with
  | some gp =>
      let dim_factor :=
        π ^ 2 * Real.sqrt (D11 * D22) / c.stiffenerHeight / c.stiffenerHeight
      let Xtest : ℕ → ℝ := fun j =>
        if j = 0 then Real.log xi
        else if j = 1 then Real.log rho_0
        else if j = 2 then Real.log genPoiss
        else Real.log zeta
      dim_factor * Real.exp (predictMeanTestData gp Xtest)
  | none =>
      let dim_factor :=
        π ^ 2 * Real.sqrt (D11 * D22) / c.stiffenerHeight / c.stiffenerHeight
      let nondim_factor := (0.476 - 0.56 * (genPoiss - 0.2)) * xi
      dim_factor * nondim_factor

/-- Accumulator slots of `computeCriticalLocalAxialLoadSens`
(`D11sens, D22sens, rho_0sens, xisens, spitchsens, zetasens`). -/
structure LocalAxialSensAcc where
  D11sens : ℝ
  D22sens : ℝ
  rho0sens : ℝ
  xisens : ℝ
  spitchsens : ℝ
  zetasens : ℝ

/-- The closed-form (no surrogate) branch of `computeCriticalLocalAxialLoadSens`
(lines 1476-1525).  Line 1496 assigns
`*D11sens = *D22sens = *spitchsens = *rho_0sens = *xisens = 0.0;` before the
mode loop accumulates into those five slots, so they are rebuilt from zero on
every call; `zetasens` is never touched by this branch.  The mode loop
(lines 1497-1522) adds, for each mode `m1 = i+1`, the listed products of the
upstream-scaled KS weight with the per-mode partials; the function returns
`-1 * neg_N11crit`. -/
def computeCriticalLocalAxialLoadSens_cf (M : ℕ) (ksWeight sp : ℝ)
    (N1sens D11 D22 rho_0 xi zeta : ℝ) (acc : LocalAxialSensAcc) :
    ℝ × LocalAxialSensAcc :=
  let dim_factor := π ^ 2 * Real.sqrt (D11 * D22) / sp / sp
  let negf : ℕ → ℝ := fun i =>
    -(dim_factor * ((((i : ℝ) + 1) / rho_0) ^ (2 : ℝ) +
        (((i : ℝ) + 1) / rho_0) ^ (-2 : ℝ) + 2 * xi))
  let neg_N11crits := (List.range M).map negf
  let ws := ksAggregationSensWeights neg_N11crits ksWeight
  let sf : ℕ → ℝ := fun i => ws.getD i 0 * N1sens
  let neg_N11crit := ksAggregation neg_N11crits ksWeight
  let res := -(neg_N11crit)
  (res,
   { D11sens := ((List.range M).map (fun i => sf i * (0.5 * negf i / D11))).sum,
     D22sens := ((List.range M).map (fun i => sf i * (0.5 * negf i / D22))).sum,
     rho0sens := ((List.range M).map (fun i =>
       sf i * -dim_factor *
         (-2 * ((((i : ℝ) + 1)) / rho_0) ^ (2 : ℝ) / rho_0 +
           ((((i : ℝ) + 1)) / rho_0) ^ (-2 : ℝ) * 2 / rho_0))).sum,
     xisens := ((List.range M).map (fun i => sf i * -dim_factor * 2)).sum,
     spitchsens := ((List.range M).map (fun i => sf i * (-2 * negf i / sp))).sum,
     zetasens := acc.zetasens })

/-! ## Failure evaluation (`computeFailureValues`, `evalFailureStrainSens`,
`addFailureDVSens`) -/

/-- External collaborators of `TACSGPBladeStiffenedShellConstitutive`, modelled
from the spec (they live in base classes that are not under src/): effective
moduli and section properties (`computeEffectiveModulii`,
`computeStiffenerArea`, `computeStiffenerIzz`), the extracted panel/stiffener
A and D stiffness entries (strain-independent, DV-determined), stress
resultants, material-failure criteria, the strain transform, and the
buckling-envelope interaction rule.  Per spec section 6 each collaborator is a
deterministic forward/sensitivity pair whose sensitivity variant returns the
same forward value, so each pair is represented by one value function plus one
gradient function. -/
structure Externals where
  E1p : ℝ
  E1s : ℝ
  stiffenerArea : ℝ
  stiffenerIzz : ℝ
  panelA : ℕ → ℝ
  panelD : ℕ → ℝ
  stiffA : ℕ → ℝ
  stiffD : ℕ → ℝ
  computePanelFailure : (ℕ → ℝ) → ℝ
  panelFailureStrainGrad : (ℕ → ℝ) → (ℕ → ℝ)
  transformStrain : (ℕ → ℝ) → (ℕ → ℝ)
  computeStiffenerFailure : (ℕ → ℝ) → ℝ
  stiffenerFailureStrainGrad : (ℕ → ℝ) → (ℕ → ℝ)
  transformStrainSens : (ℕ → ℝ) → (ℕ → ℝ)
  computePanelStress : (ℕ → ℝ) → (ℕ → ℝ)
  computeStiffenerStress : (ℕ → ℝ) → (ℕ → ℝ)
  bucklingEnvelope : ℝ → ℝ → ℝ → ℝ → ℝ
  bucklingEnvelopeGrad : ℝ → ℝ → ℝ → ℝ → ℝ × ℝ × ℝ × ℝ

/-- `computeStiffenerAreaRatio` (lines 1169-1183):
`delta = E1s * As / (E1p * stiffenerPitch * panelThick)` with the effective
moduli and stiffener area supplied by the external collaborators. -/
def computeStiffenerAreaRatio (c : GPConst) (ext : Externals) : ℝ :=
  ext.E1s * ext.stiffenerArea / (ext.E1p * c.stiffenerPitch * c.panelThick)

/-- `computeStiffenerStiffnessRatio` (lines 1201-1220):
`gamma = E1s * Is / D11 / stiffenerThick`. -/
def computeStiffenerStiffnessRatio (c : GPConst) (ext : Externals) (D11 : ℝ) : ℝ :=
  ext.E1s * ext.stiffenerIzz / D11 / c.stiffenerThick

/-- `computeFailureValues` (lines 498-590): the five failure ratios
`[panel material, stiffener material, global buckling, local buckling,
stiffener crippling]` and their KS aggregate.  Returns
`(aggregate, fails)`; `none` models a non-terminating Newton solve inside the
closed-form shear loads. -/
def computeFailureValues (c : GPConst) (ext : Externals) (fuel : ℕ)
    (e : ℕ → ℝ) : Option (ℝ × List ℝ) :=
  let fail0 := ext.computePanelFailure e
  let stiffenerStrain := ext.transformStrain e
  let fail1 := ext.computeStiffenerFailure stiffenerStrain
  let Dp := ext.panelD
  let Ap := ext.panelA
  let panelStress := ext.computePanelStress e
  let D11p := Dp 0
  let D12p := Dp 1
  let D22p := Dp 3
  let D66p := Dp 5
  let A11p := Ap 0
  let A66p := Ap 5
  let a := c.panelLength
  let b := c.panelWidth
  let delta := computeStiffenerAreaRatio c ext
  let rho0Panel := computeAffineAspectRatio D11p D22p a b
  let xiPanel := computeGeneralizedRigidity D11p D22p D12p D66p
  let gamma := computeStiffenerStiffnessRatio c ext D11p
  let zetaPanel := computeTransverseShearParameter A66p A11p b c.panelThick
  let N1CritGlobal :=
    computeCriticalGlobalAxialLoad c D11p D22p b delta rho0Panel xiPanel gamma zetaPanel
  (computeCriticalGlobalShearLoad c fuel D11p D22p b xiPanel rho0Panel gamma
      zetaPanel).bind (fun N12CritGlobal =>
    let fail2 := ext.bucklingEnvelope (-(panelStress 0)) N1CritGlobal
      (panelStress 2) N12CritGlobal
    let N1CritLocal :=
      computeCriticalLocalAxialLoad c D11p D22p rho0Panel xiPanel zetaPanel
    (computeCriticalLocalShearLoad c fuel D11p D22p xiPanel rho0Panel
        zetaPanel).bind (fun N12CritLocal =>
      let fail3 := ext.bucklingEnvelope (-(panelStress 0)) N1CritLocal
        (panelStress 2) N12CritLocal
      let Ds := ext.stiffD
      let stiffenerStress := ext.computeStiffenerStress stiffenerStrain
      let D11s := Ds 0
      let D12s := Ds 1
      let D22s := Ds 3
      let D66s := Ds 5
      let A11s := ext.stiffA 0
      let A66s := ext.stiffA 5
      let bStiff := c.stiffenerHeight
      let hStiff := c.stiffenerThick
      let rho0Stiff := computeAffineAspectRatio D11s D22s a bStiff
      let xiStiff := computeGeneralizedRigidity D11s D22s D12s D66s
      let genPoiss := computeGeneralizedPoissonsRatio D12s D66s
      let zetaStiff := computeTransverseShearParameter A66s A11s bStiff hStiff
      let N1CritCrippling :=
        computeStiffenerCripplingLoad c D11s D22s xiStiff rho0Stiff genPoiss zetaStiff
      let N1 := -(stiffenerStress 0)
      let fail4 := N1 / N1CritCrippling
      let fails := [fail0, fail1, fail2, fail3, fail4]
      some (ksAggregation fails c.ksWeight, fails)))

/-- Final assembly of the strain-sensitivity vector inside
`evalFailureStrainSens` (lines 704-730), as a function of the intermediate
values already computed by the earlier part of the routine: the KS weights
`dKSdf`, the material strain gradients, the panel and stiffener A-matrix
entries, the four raw buckling-envelope load sensitivities and the crippling
critical load.  Line 704-707 seeds `sens` with the material part; lines
711-715 scale the *local*-buckling chain by `dKSdf[2]` and scatter it; lines
720-724 scale the *global*-buckling chain by `dKSdf[3]` and scatter it; lines
727-730 add the crippling part `dKSdf[4] / N1CritCrippling` times `-As`. -/
def evalFailureStrainSensAssembly (dKSdf : ℕ → ℝ)
    (panelFailSens stiffenerFailSens : ℕ → ℝ) (Ap As : ℕ → ℝ)
    (N1GlobalSens N12GlobalSens N1LocalSens N12LocalSens N1CritCrippling : ℝ) :
    ℕ → ℝ :=
  let base : ℕ → ℝ := fun i => dKSdf 0 * panelFailSens i + dKSdf 1 * stiffenerFailSens i
  let N1L := N1LocalSens * dKSdf 2
  let N12L := N12LocalSens * dKSdf 2
  let N1G := N1GlobalSens * dKSdf 3
  let N12G := N12GlobalSens * dKSdf 3
  let N1stiffSens := dKSdf 4 / N1CritCrippling
  fun i =>
    if i = 0 then
      base 0 + (N1L * -(Ap 0) + N12L * Ap 2) + (N1G * -(Ap 0) + N12G * Ap 2) +
        N1stiffSens * -(As 0)
    else if i = 1 then
      base 1 + (N1L * -(Ap 1) + N12L * Ap 4) + (N1G * -(Ap 1) + N12G * Ap 4) +
        N1stiffSens * -(As 1)
    else if i = 2 then
      base 2 + (N1L * -(Ap 2) + N12L * Ap 5) + (N1G * -(Ap 2) + N12G * Ap 5) +
        N1stiffSens * -(As 2)
    else base i

/-- `evalFailureStrainSens` (lines 593-733): recomputes the five failure
ratios (through the sensitivity variants of the external collaborators, which
return the same forward values), KS-aggregates them with `ksAggregationSens`,
and assembles the strain sensitivity via `evalFailureStrainSensAssembly`.
Returns `(aggregate, sens)`. -/
def evalFailureStrainSens (c : GPConst) (ext : Externals) (fuel : ℕ)
    (e : ℕ → ℝ) : Option (ℝ × (ℕ → ℝ)) :=
  let fail0 := ext.computePanelFailure e
  let panelFailSens := ext.panelFailureStrainGrad e
  let stiffenerStrain := ext.transformStrain e
  let fail1 := ext.computeStiffenerFailure stiffenerStrain
  let stiffenerFailSens :=
    ext.transformStrainSens (ext.stiffenerFailureStrainGrad stiffenerStrain)
  let Dp := ext.panelD
  let Ap := ext.panelA
  let panelStress := ext.computePanelStress e
  let D11p := Dp 0
  let D12p := Dp 1
  let D22p := Dp 3
  let D66p := Dp 5
  let A11p := Ap 0
  let A66p := Ap 5
  let a := c.panelLength
  let b := c.panelWidth
  let delta := computeStiffenerAreaRatio c ext
  let rho0Panel := computeAffineAspectRatio D11p D22p a b
  let xiPanel := computeGeneralizedRigidity D11p D22p D12p D66p
  let gamma := computeStiffenerStiffnessRatio c ext D11p
  let zetaPanel := computeTransverseShearParameter A66p A11p b c.panelThick
  let N1CritGlobal :=
    computeCriticalGlobalAxialLoad c D11p D22p b delta rho0Panel xiPanel gamma zetaPanel
  (computeCriticalGlobalShearLoad c fuel D11p D22p b xiPanel rho0Panel gamma
      zetaPanel).bind (fun N12CritGlobal =>
    let fail2 := ext.bucklingEnvelope (-(panelStress 0)) N1CritGlobal
      (panelStress 2) N12CritGlobal
    let envG := ext.bucklingEnvelopeGrad (-(panelStress 0)) N1CritGlobal
      (panelStress 2) N12CritGlobal
    let N1CritLocal :=
      computeCriticalLocalAxialLoad c D11p D22p rho0Panel xiPanel zetaPanel
    (computeCriticalLocalShearLoad c fuel D11p D22p xiPanel rho0Panel
        zetaPanel).bind (fun N12CritLocal =>
      let fail3 := ext.bucklingEnvelope (-(panelStress 0)) N1CritLocal
        (panelStress 2) N12CritLocal
      let envL := ext.bucklingEnvelopeGrad (-(panelStress 0)) N1CritLocal
        (panelStress 2) N12CritLocal
      let Ds := ext.stiffD
      let stiffenerStress := ext.computeStiffenerStress stiffenerStrain
      let D11s := Ds 0
      let D12s := Ds 1
      let D22s := Ds 3
      let D66s := Ds 5
      let A11s := ext.stiffA 0
      let A66s := ext.stiffA 5
      let bStiff := c.stiffenerHeight
      let hStiff := c.stiffenerThick
      let rho0Stiff := computeAffineAspectRatio D11s D22s a bStiff
      let xiStiff := computeGeneralizedRigidity D11s D22s D12s D66s
      let genPoiss := computeGeneralizedPoissonsRatio D12s D66s
      let zetaStiff := computeTransverseShearParameter A66s A11s bStiff hStiff
      let N1CritCrippling :=
        computeStiffenerCripplingLoad c D11s D22s xiStiff rho0Stiff genPoiss zetaStiff
      let N1 := -(stiffenerStress 0)
      let fail4 := N1 / N1CritCrippling
      let fails := [fail0, fail1, fail2, fail3, fail4]
      let fail := ksAggregation fails c.ksWeight
      let dKSdf : ℕ → ℝ := fun j => (ksAggregationSensWeights fails c.ksWeight).getD j 0
      let sens := evalFailureStrainSensAssembly dKSdf panelFailSens
        stiffenerFailSens Ap ext.stiffA envG.1 envG.2.2.1 envL.1 envL.2.2.1
        N1CritCrippling
      some (fail, sens)))

/-! ## The crippling-stress DV scatter inside `addFailureDVSens` -/

/-- Modelled from the spec: `addStiffenerStressDVSens` (base class, not under
src/) backpropagates a stress adjoint into the stiffener sub-block's `nStiff`
contiguous design-variable slots of the buffer pointer it is handed, adding
`scale * contrib j` into slot `j` for `j < nStiff` (spec: sensitivity writes
are additive and land inside the owning sub-block's contiguous index range). -/
def addStiffenerStressDVSens (nStiff : ℕ) (scale : ℝ) (contrib : ℕ → ℝ)
    (buf : ℕ → ℝ) : ℕ → ℝ :=
  fun j => if j < nStiff then buf j + scale * contrib j else buf j

/-- The stiffener-crippling stress DV-sensitivity call inside
`addFailureDVSens` (lines 979-985).  The source passes the buffer pointer
`&dfdx[this->panelDVStartNum]` (line 985), so slot `j` of the callee's buffer
aliases `dfdx[panelDVStartNum + j]`; the write-back below spells out that
pointer arithmetic. -/
def addFailureDVSens_cripplingStressCall (panelDVStartNum nStiff : ℕ)
    (scale : ℝ) (contrib : ℕ → ℝ) (dfdx : ℕ → ℝ) : ℕ → ℝ :=
  let callee := addStiffenerStressDVSens nStiff scale contrib
    (fun j => dfdx (panelDVStartNum + j))
  fun i =>
    if panelDVStartNum ≤ i ∧ i < panelDVStartNum + nStiff then
      callee (i - panelDVStartNum)
    else dfdx i

/-! ## Design-variable get/set (lines 406-447, 1072-1095) -/

/-- Modelled from the spec: the base class
(`TACSBladeStiffenedShellConstitutive`, not under src/) owns the first
`base.length` design variables, stored here as a list; its `setDesignVars`
copies slots `0 .. base.length - 1` out of the incoming vector when the vector
is long enough. -/
def baseSetDesignVars (base : List ℝ) (dvLen : ℕ) (dvs : ℕ → ℝ) : List ℝ :=
  if base.length ≤ dvLen then (List.range base.length).map dvs else base

/-- Modelled from the spec: the base class's `getDesignVars` writes its stored
design variables into slots `0 .. base.length - 1` of the output vector when
the vector is long enough. -/
def baseGetDesignVars (base : List ℝ) (dvLen : ℕ) (out : ℕ → ℝ) : ℕ → ℝ :=
  if base.length ≤ dvLen then
    fun i => if i < base.length then base.getD i 0 else out i
  else out

/-- Design-variable state of `TACSGPBladeStiffenedShellConstitutive`: the base
sub-blocks plus the one extra `panelWidth` variable added by this subclass. -/
structure GPConstDV where
  base : List ℝ
  panelWidth : ℝ
  panelWidthNum : ℤ
  panelWidthLocalNum : ℤ
  numDesignVars : ℕ

/-- The DV section of the constructor (lines 426-435): if `panelWidthNum >= 0`
the panel width is appended as one more local design variable
(`panelWidthLocalNum = numDesignVars; numDesignVars++`), otherwise
`panelWidthLocalNum` stays `-1`. -/
def mkGPConstDV (base : List ℝ) (panelWidth : ℝ) (panelWidthNum : ℤ) : GPConstDV :=
  if 0 ≤ panelWidthNum then
    { base := base, panelWidth := panelWidth, panelWidthNum := panelWidthNum,
      panelWidthLocalNum := (base.length : ℤ), numDesignVars := base.length + 1 }
  else
    { base := base, panelWidth := panelWidth, panelWidthNum := panelWidthNum,
      panelWidthLocalNum := -1, numDesignVars := base.length }

/-- `setDesignVars` (lines 1073-1082): base-class call, then
`if (dvLen >= numDesignVars) if (panelWidthNum >= 0)
panelWidth = dvs[panelWidthLocalNum]`; returns `numDesignVars`. -/
def setDesignVars (s : GPConstDV) (dvLen : ℕ) (dvs : ℕ → ℝ) : GPConstDV × ℕ :=
  let s1 : GPConstDV := { s with base := baseSetDesignVars s.base dvLen dvs }
  let s2 : GPConstDV :=
    if s.numDesignVars ≤ dvLen ∧ 0 ≤ s.panelWidthNum then
      { s1 with panelWidth := dvs s.panelWidthLocalNum.toNat }
    else s1
  (s2, s.numDesignVars)

/-- `getDesignVars` (lines 1085-1095): base-class call, then
`if (dvLen >= numDesignVars) if (panelWidthNum >= 0)
dvs[panelWidthLocalNum] = panelWidth`; returns `numDesignVars`. -/
def getDesignVars (s : GPConstDV) (dvLen : ℕ) (out : ℕ → ℝ) : (ℕ → ℝ) × ℕ :=
  let o1 := baseGetDesignVars s.base dvLen out
  let o2 :=
    if s.numDesignVars ≤ dvLen ∧ 0 ≤ s.panelWidthNum then
      Function.update o1 s.panelWidthLocalNum.toNat s.panelWidth
    else o1
  (o2, s.numDesignVars)

/-! ## Shared helper lemmas -/

/-- Folding the kernel-times-coefficient accumulation over a list equals the
start value plus the sum of the mapped list. -/
theorem foldl_kernel_add_map_sum (gp : GPModel) (x : ℕ → ℝ) :
    ∀ (l : List ((ℕ → ℝ) × ℝ)) (a : ℝ),
      l.foldl (fun acc p => acc + gp.kernel x p.1 * p.2) a =
        a + (l.map (fun p => p.2 * gp.kernel x p.1)).sum := by
  intro l
  induction l with
  | nil => intro a; simp
  | cons q qs ih =>
      intro a
      simp only [List.foldl_cons, List.map_cons, List.sum_cons, ih]
      ring

/-- The accumulated mean prediction equals the dot product of the coefficient
vector with the kernel column. -/
theorem predictMeanTestData_eq_sum (gp : GPModel) (x : ℕ → ℝ) :
    predictMeanTestData gp x =
      ((gp.Xtrain.zip gp.alpha).map (fun p => p.2 * gp.kernel x p.1)).sum := by
  unfold predictMeanTestData
  rw [foldl_kernel_add_map_sum gp x (gp.Xtrain.zip gp.alpha) 0, zero_add]

/-- Pushing `Option.map Prod.fst` through `Option.bind` only needs the first
components of the continuations to agree. -/
theorem option_bind_map_fst_congr {α β γ δ : Type} (x : Option α)
    (f : α → Option (β × γ)) (g : α → Option (β × δ))
    (h : ∀ a, (f a).map Prod.fst = (g a).map Prod.fst) :
    (x.bind f).map Prod.fst = (x.bind g).map Prod.fst := by
  cases x with
  | none => rfl
  | some a => simpa using h a

/-! ## Claim theorems -/

/-- C8: `computeTransverseShearParameter(A66, A11, b, h)` returns
`(A66/A11)*(b/h)^2`, and for every input `computeTransverseShearParameterSens`
adds into its four output slots exactly `zetasens` times the analytic partial
derivatives of that formula: `zeta/A66` into `A66sens`, `-zeta/A11` into
`A11sens`, `2*zeta/b` into `bsens` and `-2*zeta/h` into `hsens`, where `zeta`
is the forward value (which the routine also returns). -/
theorem transverseShearParameter_forward_and_sens
    (zetasens A66 A11 b h A66sens A11sens bsens hsens : ℝ) :
    computeTransverseShearParameter A66 A11 b h = A66 / A11 * (b / h) ^ 2 ∧
    computeTransverseShearParameterSens zetasens A66 A11 b h
        A66sens A11sens bsens hsens =
      (computeTransverseShearParameter A66 A11 b h,
       A66sens + zetasens * (computeTransverseShearParameter A66 A11 b h / A66),
       A11sens + zetasens * (-(computeTransverseShearParameter A66 A11 b h) / A11),
       bsens + zetasens * (2 * computeTransverseShearParameter A66 A11 b h / b),
       hsens + zetasens * (-2 * computeTransverseShearParameter A66 A11 b h / h)) := by
  unfold computeTransverseShearParameter computeTransverseShearParameterSens
  refine ⟨by ring, ?_⟩
  simp only [Prod.mk.injEq]
  refine ⟨by ring_nf, by ring_nf, by ring_nf, by ring_nf, ?_⟩
  ring_nf

/-- A one-training-point model with a constant unit kernel gradient, used to
evaluate the accumulator discipline of `predictMeanTestDataSens` on concrete
numbers (the discipline itself is kernel-independent). -/
def gpOne : GPModel where
  Xtrain := [fun _ => 0]
  alpha := [1]
  kernel := fun _ _ => 0
  kernelGrad := fun _ _ => fun _ => 1

/-- C2, counterexample: invoking `predictMeanTestDataSens` twice with upstream
scalar `1` on a zero-initialized accumulator does NOT yield twice the
single-call result: the `memset` at line 57 re-zeroes the accumulator, so the
second call returns the single-call value `1`, not `2`, in slot 0. -/
theorem predictMeanTestDataSens_not_additive :
    ¬ ((predictMeanTestDataSens gpOne 1 (fun _ => 0)
          (predictMeanTestDataSens gpOne 1 (fun _ => 0) (fun _ => 0)).2).2 0 =
        2 * (predictMeanTestDataSens gpOne 1 (fun _ => 0) (fun _ => 0)).2 0) := by
  simp only [predictMeanTestDataSens, gpOne, kernelSensUpdate, List.zip_cons_cons,
    List.zip_nil_right, List.foldl_cons, List.foldl_nil]
  norm_num

/-- C2, amended: `predictMeanTestDataSens` zeroes the caller-supplied
accumulator (`memset`, line 57) and the closed-form branch of
`computeCriticalLocalAxialLoadSens` assigns `0.0` to its `D11sens`, `D22sens`,
`spitchsens`, `rho_0sens` and `xisens` accumulators (line 1496, `zetasens`
untouched), so invoking either routine twice with the same upstream scalar
yields exactly the single-call result in every accumulator slot, not twice. -/
theorem sensRoutines_second_call_equals_first :
    (∀ (gp : GPModel) (Ysens : ℝ) (Xtest acc : ℕ → ℝ),
      predictMeanTestDataSens gp Ysens Xtest
          (predictMeanTestDataSens gp Ysens Xtest acc).2 =
        predictMeanTestDataSens gp Ysens Xtest acc) ∧
    (∀ (M : ℕ) (ksWeight sp N1sens D11 D22 rho_0 xi zeta : ℝ)
        (acc : LocalAxialSensAcc),
      computeCriticalLocalAxialLoadSens_cf M ksWeight sp N1sens D11 D22 rho_0 xi
          zeta
          (computeCriticalLocalAxialLoadSens_cf M ksWeight sp N1sens D11 D22
            rho_0 xi zeta acc).2 =
        computeCriticalLocalAxialLoadSens_cf M ksWeight sp N1sens D11 D22 rho_0
          xi zeta acc) := by
  exact ⟨fun gp Ysens Xtest acc => rfl, fun M ksW sp N1sens D11 D22 r x z acc => rfl⟩

/-- C1: at the concrete assembly state where only the KS weight of `fails[2]`
(the global-buckling ratio) is nonzero (`dKSdf = [0,0,1,0,0]`), the raw
global-buckling load sensitivity is `N1GlobalSens = 1`, `Ap[0] = 1` and every
other input is zero (with `N1CritCrippling = 1`), the code's strain
sensitivity slot 0 is `0`; moving the unit KS weight to `fails[3]`
(`dKSdf = [0,0,0,1,0]`) instead produces `-1` in slot 0.  The claim (and the
spec, and the parallel `addFailureDVSens`, lines 824-827) requires the
global-buckling chain to be scaled by the weight of `fails[2]`, which would
give `-1` in the first state: the code multiplies the global chain by
`dKSdf[3]` and the local chain by `dKSdf[2]` (lines 711-721), i.e. the two KS
weights are swapped. -/
theorem evalFailureStrainSens_ks_weights_swapped :
    (evalFailureStrainSensAssembly (fun j => if j = 2 then 1 else 0) (fun _ => 0)
        (fun _ => 0) (fun j => if j = 0 then 1 else 0) (fun _ => 0) 1 0 0 0 1) 0 = 0 ∧
    (evalFailureStrainSensAssembly (fun j => if j = 3 then 1 else 0) (fun _ => 0)
        (fun _ => 0) (fun j => if j = 0 then 1 else 0) (fun _ => 0) 1 0 0 0 1) 0 = -1 := by
  constructor <;> norm_num [evalFailureStrainSensAssembly]

/-- C3: with the design-variable layout `panelDVStartNum = 0`, a stiffener
sub-block of `nStiff = 2` variables starting at `stiffenerDVStartNum = 3`,
`scale = 1`, unit stiffener-stress contributions and a zero-initialized
`dfdx`, the crippling-stress call of `addFailureDVSens` (lines 984-985, which
passes `&dfdx[panelDVStartNum]`) adds `1` into slot `0` — inside the panel
sub-block — and leaves slot `3` — the first stiffener sub-block slot, where
the claim says the contribution belongs — at `0`. -/
theorem addFailureDVSens_crippling_writes_panel_block :
    addFailureDVSens_cripplingStressCall 0 2 1 (fun _ => 1) (fun _ => 0) 0 = 1 ∧
    addFailureDVSens_cripplingStressCall 0 2 1 (fun _ => 1) (fun _ => 0) 3 = 0 := by
  constructor <;>
    norm_num [addFailureDVSens_cripplingStressCall, addStiffenerStressDVSens]

/-- C6: with an axial surrogate attached, `computeCriticalGlobalAxialLoad`
returns exactly the dimensional prefactor `pi^2*sqrt(D11*D22)/b^2/(1+delta)`
times `exp(m)`, where `m` is the surrogate mean prediction at the
log-transformed input `[log xi, log rho_0, log(1+gamma), log zeta]`; and the
mean prediction is the sum over training points of
`alpha[i] * kernel(x, Xtrain[i])`. -/
theorem computeCriticalGlobalAxialLoad_surrogate (c : GPConst) (gp : GPModel)
    (h : c.axialGP = some gp) (D11 D22 b delta rho_0 xi gamma zeta : ℝ) :
    computeCriticalGlobalAxialLoad c D11 D22 b delta rho_0 xi gamma zeta =
      π ^ 2 * Real.sqrt (D11 * D22) / b ^ 2 / (1 + delta) *
        Real.exp (predictMeanTestData gp (fun j =>
          if j = 0 then Real.log xi
          else if j = 1 then Real.log rho_0
          else if j = 2 then Real.log (1 + gamma)
          else Real.log zeta)) ∧
    (∀ (gp2 : GPModel) (x : ℕ → ℝ),
      predictMeanTestData gp2 x =
        ((gp2.Xtrain.zip gp2.alpha).map (fun p => p.2 * gp2.kernel x p.1)).sum) := by
  constructor
  · have h1 : computeCriticalGlobalAxialLoad c D11 D22 b delta rho_0 xi gamma zeta =
        π ^ 2 * Real.sqrt (D11 * D22) / b / b / (1 + delta) *
          Real.exp (predictMeanTestData gp (fun j =>
            if j = 0 then Real.log xi
            else if j = 1 then Real.log rho_0
            else if j = 2 then Real.log (1 + gamma)
            else Real.log zeta)) := by
      unfold computeCriticalGlobalAxialLoad
      rw [h]
    rw [h1]
    ring
  · exact fun gp2 x => predictMeanTestData_eq_sum gp2 x

/-- C7: with no axial surrogate attached, `computeCriticalGlobalAxialLoad`
returns the negation of the KS aggregate (sharpness `ksWeight`) of the
`NUM_CF_MODES` negated mode loads, the `m`-th mode load being
`pi^2*sqrt(D11*D22)/b^2/(1+delta) * ((1+gamma)*(m/rho_0)^2 + (m/rho_0)^-2 + 2*xi)`
for `m = 1 .. NUM_CF_MODES`. -/
theorem computeCriticalGlobalAxialLoad_closedForm (c : GPConst)
    (h : c.axialGP = none) (D11 D22 b delta rho_0 xi gamma zeta : ℝ) :
    computeCriticalGlobalAxialLoad c D11 D22 b delta rho_0 xi gamma zeta =
      -(ksAggregation ((List.range c.numCFmodes).map (fun i =>
          -(π ^ 2 * Real.sqrt (D11 * D22) / b ^ 2 / (1 + delta) *
            ((1 + gamma) * (((i : ℝ) + 1) / rho_0) ^ 2 +
              ((((i : ℝ) + 1) / rho_0) ^ 2)⁻¹ + 2 * xi)))) c.ksWeight) := by
  have hp2 : ∀ x : ℝ, x ^ (2 : ℝ) = x ^ 2 := fun x => by
    rw [show (2 : ℝ) = ((2 : ℕ) : ℝ) by norm_num, Real.rpow_natCast]
  have hm2 : ∀ x : ℝ, x ^ (-2 : ℝ) = (x ^ 2)⁻¹ := fun x => by
    rw [show (-2 : ℝ) = ((-2 : ℤ) : ℝ) by norm_num, Real.rpow_intCast]
    rw [show (-2 : ℤ) = -(2 : ℕ) by norm_num, zpow_neg, zpow_natCast]
  have h1 : computeCriticalGlobalAxialLoad c D11 D22 b delta rho_0 xi gamma zeta =
      -(ksAggregation ((List.range c.numCFmodes).map (fun i =>
          -(π ^ 2 * Real.sqrt (D11 * D22) / b / b / (1 + delta) *
            ((1 + gamma) * (((i : ℝ) + 1) / rho_0) ^ (2 : ℝ) +
              (((i : ℝ) + 1) / rho_0) ^ (-2 : ℝ) + 2 * xi)))) c.ksWeight) := by
    unfold computeCriticalGlobalAxialLoad
    rw [h]
  rw [h1]
  congr 1
  refine congrArg (fun l => ksAggregation l c.ksWeight) ?_
  refine List.map_congr_left (fun i _ => ?_)
  rw [hp2, hm2]
  ring

/-- Surrogate model used to instantiate the C6 witness. -/
def gpW : GPModel where
  Xtrain := []
  alpha := []
  kernel := fun _ _ => 0
  kernelGrad := fun _ _ => fun _ => 0

/-- Constitutive state with an attached axial surrogate (C6 witness). -/
def cSurro : GPConst where
  panelLength := 1
  panelWidth := 1
  panelThick := 1
  stiffenerPitch := 1
  stiffenerHeight := 1
  stiffenerThick := 1
  ksWeight := 1
  numCFmodes := 3
  axialGP := some gpW
  shearGP := none
  cripplingGP := none

/-- Constitutive state with no surrogate attached (C7 witness). -/
def cClosedForm : GPConst where
  panelLength := 1
  panelWidth := 1
  panelThick := 1
  stiffenerPitch := 1
  stiffenerHeight := 1
  stiffenerThick := 1
  ksWeight := 1
  numCFmodes := 3
  axialGP := none
  shearGP := none
  cripplingGP := none

/-- Witness for C6 at the concrete state `cSurro` and unit inputs. -/
theorem computeCriticalGlobalAxialLoad_surrogate_witness :
    cSurro.axialGP = some gpW ∧
    (computeCriticalGlobalAxialLoad cSurro 1 1 1 1 1 1 1 1 =
      π ^ 2 * Real.sqrt (1 * 1) / 1 ^ 2 / (1 + 1) *
        Real.exp (predictMeanTestData gpW (fun j =>
          if j = 0 then Real.log 1
          else if j = 1 then Real.log 1
          else if j = 2 then Real.log (1 + 1)
          else Real.log 1)) ∧
    (∀ (gp2 : GPModel) (x : ℕ → ℝ),
      predictMeanTestData gp2 x =
        ((gp2.Xtrain.zip gp2.alpha).map (fun p => p.2 * gp2.kernel x p.1)).sum)) :=
  ⟨rfl, computeCriticalGlobalAxialLoad_surrogate cSurro gpW rfl 1 1 1 1 1 1 1 1⟩

/-- Witness for C7 at the concrete state `cClosedForm` and unit inputs. -/
theorem computeCriticalGlobalAxialLoad_closedForm_witness :
    cClosedForm.axialGP = none ∧
    computeCriticalGlobalAxialLoad cClosedForm 1 1 1 1 1 1 1 1 =
      -(ksAggregation ((List.range cClosedForm.numCFmodes).map (fun i =>
          -(π ^ 2 * Real.sqrt (1 * 1) / 1 ^ 2 / (1 + 1) *
            ((1 + 1) * (((i : ℝ) + 1) / 1) ^ 2 +
              ((((i : ℝ) + 1) / 1) ^ 2)⁻¹ + 2 * 1)))) cClosedForm.ksWeight) :=
  ⟨rfl, computeCriticalGlobalAxialLoad_closedForm cClosedForm rfl 1 1 1 1 1 1 1 1⟩

/-- C9: for every strain vector, constitutive state, external-collaborator
state and Newton fuel, the aggregate failure scalar returned by
`evalFailureStrainSens` equals the one returned by `computeFailureValues`:
both compute the same five failure ratios and KS-aggregate them with the same
`ksWeight` (the sensitivity variants of the external collaborators return the
same forward values as their plain variants, spec section 6). -/
theorem evalFailureStrainSens_value_eq_computeFailureValues
    (c : GPConst) (ext : Externals) (fuel : ℕ) (e : ℕ → ℝ) :
    (evalFailureStrainSens c ext fuel e).map Prod.fst =
      (computeFailureValues c ext fuel e).map Prod.fst := by
  unfold evalFailureStrainSens computeFailureValues
  refine option_bind_map_fst_congr _ _ _ (fun a => ?_)
  refine option_bind_map_fst_congr _ _ _ (fun b => ?_)
  rfl

/-- C10: if `panelWidthNum >= 0` and `dvLen >= numDesignVars`, then after
`setDesignVars` a subsequent `getDesignVars` writes
`out[panelWidthLocalNum] = dvs[panelWidthLocalNum]` (the panel-width design
variable round-trips), and both calls return `numDesignVars`. -/
theorem setGetDesignVars_panelWidth_roundtrip
    (base : List ℝ) (pw : ℝ) (pwNum : ℤ) (dvLen : ℕ) (dvs out : ℕ → ℝ)
    (hnum : 0 ≤ pwNum)
    (hlen : (mkGPConstDV base pw pwNum).numDesignVars ≤ dvLen) :
    ((getDesignVars (setDesignVars (mkGPConstDV base pw pwNum) dvLen dvs).1
          dvLen out).1 ((mkGPConstDV base pw pwNum).panelWidthLocalNum.toNat) =
        dvs ((mkGPConstDV base pw pwNum).panelWidthLocalNum.toNat)) ∧
    (setDesignVars (mkGPConstDV base pw pwNum) dvLen dvs).2 =
      (mkGPConstDV base pw pwNum).numDesignVars ∧
    (getDesignVars (setDesignVars (mkGPConstDV base pw pwNum) dvLen dvs).1
        dvLen out).2 = (mkGPConstDV base pw pwNum).numDesignVars := by
  have hmk : mkGPConstDV base pw pwNum =
      { base := base, panelWidth := pw, panelWidthNum := pwNum,
        panelWidthLocalNum := (base.length : ℤ),
        numDesignVars := base.length + 1 } := by
    unfold mkGPConstDV
    rw [if_pos hnum]
  rw [hmk] at hlen ⊢
  simp only [setDesignVars, getDesignVars] at *
  have hcond : base.length + 1 ≤ dvLen ∧ 0 ≤ pwNum := ⟨hlen, hnum⟩
  simp only [hcond, and_self, if_pos, if_true, hlen, hnum, true_and]
  rw [Function.update_same]
  exact ⟨rfl, trivial⟩

/-- Witness for C10: two base design variables, `panelWidthNum = 3`,
`dvLen = 3`. -/
theorem setGetDesignVars_panelWidth_roundtrip_witness :
    (0 ≤ (3 : ℤ)) ∧ (mkGPConstDV [0, 0] 5 3).numDesignVars ≤ 3 ∧
    ((getDesignVars (setDesignVars (mkGPConstDV [0, 0] 5 3) 3
          (fun i => (i : ℝ))).1 3 (fun _ => 0)).1
        ((mkGPConstDV [0, 0] 5 3).panelWidthLocalNum.toNat) =
      (fun i => (i : ℝ)) ((mkGPConstDV [0, 0] 5 3).panelWidthLocalNum.toNat)) ∧
    (setDesignVars (mkGPConstDV [0, 0] 5 3) 3 (fun i => (i : ℝ))).2 =
      (mkGPConstDV [0, 0] 5 3).numDesignVars ∧
    (getDesignVars (setDesignVars (mkGPConstDV [0, 0] 5 3) 3
        (fun i => (i : ℝ))).1 3 (fun _ => 0)).2 =
      (mkGPConstDV [0, 0] 5 3).numDesignVars :=
  ⟨by norm_num, by norm_num [mkGPConstDV],
   setGetDesignVars_panelWidth_roundtrip [0, 0] 5 3 3 (fun i => (i : ℝ))
     (fun _ => 0) (by norm_num) (by norm_num [mkGPConstDV])⟩

/-- Any value produced by the Newton loop is reachable from the start value by
iterating `newtonStep`, and satisfies the loop's exit tolerance. -/
theorem newtonLoop_some (xi gamma : ℝ) :
    ∀ (fuel : ℕ) (q0 q : ℝ), newtonLoop xi gamma fuel q0 = some q →
      (∃ n : ℕ, q = (newtonStep xi gamma)^[n] q0) ∧
        |lam2Constraint q xi gamma| ≤ 1e-10 := by
  intro fuel
  induction fuel with
  | zero =>
      intro q0 q h
      simp only [newtonLoop] at h
      split_ifs at h with hc
      · obtain rfl := Option.some_inj.mp h
        exact ⟨⟨0, rfl⟩, hc⟩
  | succ n ih =>
      intro q0 q h
      simp only [newtonLoop] at h
      split_ifs at h with hc
      · obtain rfl := Option.some_inj.mp h
        exact ⟨⟨0, rfl⟩, hc⟩
      · obtain ⟨⟨m, hm⟩, hq⟩ := ih (newtonStep xi gamma q0) q h
        exact ⟨⟨m + 1, by rw [Function.iterate_succ_apply, ← hm]⟩, hq⟩

/-- C4: whenever `nondimShearParams` returns, there is a `lam2sq` reached from
the starting guess `0` by Newton steps at which the loop stopped with
`|lam2Constraint(lam2sq, xi, gamma)| <= 1e-10`, and the returned values are
`lam1bar = (1 + 2*lam2sq*xi + lam2sq^2 + gamma)^0.25` and
`lam2bar = sqrt(lam2sq)`. -/
theorem nondimShearParams_postcondition (fuel : ℕ) (xi gamma l1 l2 : ℝ)
    (h : nondimShearParams fuel xi gamma = some (l1, l2)) :
    ∃ (n : ℕ) (lam2sq : ℝ),
      lam2sq = (newtonStep xi gamma)^[n] 0 ∧
      |lam2Constraint lam2sq xi gamma| ≤ 1e-10 ∧
      l1 = (1 + 2 * lam2sq * xi + lam2sq ^ 2 + gamma) ^ (0.25 : ℝ) ∧
      l2 = Real.sqrt lam2sq := by
  unfold nondimShearParams at h
  obtain ⟨q, hq, hF⟩ := Option.map_eq_some'.mp h
  obtain ⟨⟨n, hn⟩, htol⟩ := newtonLoop_some xi gamma fuel 0 q hq
  refine ⟨n, q, hn, htol, ?_, ?_⟩
  · have h1 := congrArg Prod.fst hF
    dsimp at h1
    rw [← h1]
    congr 1
    ring
  · have h2 := congrArg Prod.snd hF
    dsimp at h2
    rw [← h2, show (0.5 : ℝ) = 1 / 2 by norm_num, ← Real.sqrt_eq_rpow]

/-- At `xi = 3`, `gamma = 18 - 6*sqrt 10` the Newton residual at the starting
guess `lam2sq = 0` is exactly zero, so the loop exits immediately. -/
theorem lam2Constraint_zero_at_special_point :
    lam2Constraint 0 3 (18 - 6 * Real.sqrt 10) = 0 := by
  have h10 : (0 : ℝ) ≤ 10 := by norm_num
  have hsq : Real.sqrt 10 * Real.sqrt 10 = 10 := Real.mul_self_sqrt h10
  have hsnn : 0 ≤ Real.sqrt 10 := Real.sqrt_nonneg 10
  have hs3 : 0 ≤ Real.sqrt 10 - 3 := by nlinarith
  have hs2 : 0 ≤ Real.sqrt 10 - 2 := by nlinarith
  have hpos : 0 < 19 - 6 * Real.sqrt 10 := by nlinarith
  have hlam1sq : (19 - 6 * Real.sqrt 10) ^ (0.25 : ℝ) *
      (19 - 6 * Real.sqrt 10) ^ (0.25 : ℝ) = Real.sqrt 10 - 3 := by
    rw [← Real.rpow_add hpos]
    rw [show (0.25 : ℝ) + 0.25 = 1 / 2 by norm_num, ← Real.sqrt_eq_rpow]
    rw [show (19 : ℝ) - 6 * Real.sqrt 10 = (Real.sqrt 10 - 3) ^ 2 by linear_combination -hsq]
    exact Real.sqrt_sq hs3
  simp only [lam2Constraint]
  rw [show (1 : ℝ) + 2 * 0 * 3 + 0 * 0 + (18 - 6 * Real.sqrt 10) =
    19 - 6 * Real.sqrt 10 by ring]
  rw [hlam1sq]
  rw [show (3 + 3 : ℝ) / 9 + 4 / 3 * (Real.sqrt 10 - 3) * 3 +
      4 / 3 * ((Real.sqrt 10 - 3) * (Real.sqrt 10 - 3)) =
      14 - 4 * Real.sqrt 10 by linear_combination (4 / 3) * hsq]
  rw [show (14 : ℝ) - 4 * Real.sqrt 10 = (Real.sqrt 10 - 2) ^ 2 by linear_combination -hsq]
  rw [Real.sqrt_sq hs2]
  ring

/-- Witness for C4: at `xi = 3`, `gamma = 18 - 6*sqrt 10` the solver returns
after the immediate exit (zero Newton steps suffice as fuel), and the
postcondition holds there. -/
theorem nondimShearParams_postcondition_witness :
    nondimShearParams 0 3 (18 - 6 * Real.sqrt 10) =
        some ((19 - 6 * Real.sqrt 10) ^ (0.25 : ℝ), (0 : ℝ) ^ (0.5 : ℝ)) ∧
    ∃ (n : ℕ) (lam2sq : ℝ),
      lam2sq = (newtonStep 3 (18 - 6 * Real.sqrt 10))^[n] 0 ∧
      |lam2Constraint lam2sq 3 (18 - 6 * Real.sqrt 10)| ≤ 1e-10 ∧
      (19 - 6 * Real.sqrt 10) ^ (0.25 : ℝ) =
        (1 + 2 * lam2sq * 3 + lam2sq ^ 2 + (18 - 6 * Real.sqrt 10)) ^ (0.25 : ℝ) ∧
      (0 : ℝ) ^ (0.5 : ℝ) = Real.sqrt lam2sq := by
  have hstep : newtonLoop 3 (18 - 6 * Real.sqrt 10) 0 0 = some 0 := by
    simp only [newtonLoop]
    rw [lam2Constraint_zero_at_special_point]
    norm_num
  have hsome : nondimShearParams 0 3 (18 - 6 * Real.sqrt 10) =
      some ((19 - 6 * Real.sqrt 10) ^ (0.25 : ℝ), (0 : ℝ) ^ (0.5 : ℝ)) := by
    unfold nondimShearParams
    rw [hstep]
    simp only [Option.map_some']
    rw [show (1 : ℝ) + 2 * 0 * 3 + 0 * 0 + (18 - 6 * Real.sqrt 10) =
      19 - 6 * Real.sqrt 10 by ring]
  exact ⟨hsome, nondimShearParams_postcondition 0 3 _ _ _ hsome⟩

end

end TacsGP
